import Mathlib

/-!
Shallow embedding of the parts of `bbb-presentation-video` referenced by the
checked claims, together with theorems settling those claims.

Conventions:
- Python `float` values that only undergo field arithmetic are embedded as `ℚ`
  so that concrete runs are decidable; geometry that uses `math.hypot`
  (square roots) and `math.pi` is embedded over `ℝ`.
- Python dicts are embedded as association lists (`List (κ × α)`) with
  `dictLookup` / `dictSet` mirroring `d[k]` / `d[k] = v` semantics
  (replacement preserves position, new keys are appended).
- A `TypedDict` field that may be absent is embedded as an outer `Option`
  (key presence); a value that may be `None` gets an inner `Option`.
- Code that can raise is embedded in `Except String`.
-/

namespace BBB

/-- Association-list lookup, embedding Python `k in d` / `d[k]`. -/
def dictLookup {κ α : Type} [DecidableEq κ] : List (κ × α) → κ → Option α
  | [], _ => none
  | (k, v) :: rest, key => if k = key then some v else dictLookup rest key

/-- Association-list store, embedding Python `d[k] = v`: replaces the value of
an existing key in place, otherwise appends the new binding. -/
def dictSet {κ α : Type} [DecidableEq κ] : List (κ × α) → κ → α → List (κ × α)
  | [], key, value => [(key, value)]
  | (k, v) :: rest, key, value =>
    if k = key then (k, value) :: rest else (k, v) :: dictSet rest key value

/-! ## `events.helpers`: `Position` and `Size` (attrs classes with structural equality) -/

/-- `events.helpers.Position`: a point with `x`/`y` coordinates. -/
structure Position where
  x : ℚ
  y : ℚ
deriving DecidableEq

/-- `events.helpers.Size`: a `width`/`height` pair. -/
structure Size where
  width : ℚ
  height : ℚ
deriving DecidableEq

/-! ## `events.parse_pan_zoom` -/

/-- A numeric field of a `pan_zoom` event as read from the XML: either the
literal string `NaN` (which BBB can emit) or a number that `float()` parses. -/
inductive NumField
  | nan
  | val (q : ℚ)
deriving DecidableEq

/-- `events.MAGIC_MYSTERY_NUMBER = 2.0`. -/
def MAGIC_MYSTERY_NUMBER : ℚ := 2

/-- The four numeric subelements consumed by `parse_pan_zoom`. -/
structure PanZoomRaw where
  x_offset : NumField
  y_offset : NumField
  width_ratio : NumField
  height_ratio : NumField
deriving DecidableEq

/-- `events.parse_pan_zoom`, the numeric part: computes the `pan` and `zoom`
fields of the event from the raw subelement values and the
`tldraw_whiteboard` flag. -/
def parse_pan_zoom (tldraw_whiteboard : Bool) (e : PanZoomRaw) : Position × Size :=
  let pan : Position :=
    match e.x_offset, e.y_offset with
    | NumField.nan, _ => ⟨0, 0⟩
    | _, NumField.nan => ⟨0, 0⟩
    | NumField.val x, NumField.val y =>
      if tldraw_whiteboard then ⟨x, y⟩
      else ⟨x * MAGIC_MYSTERY_NUMBER / 100, y * MAGIC_MYSTERY_NUMBER / 100⟩
  let zoom : Size :=
    match e.width_ratio, e.height_ratio with
    | NumField.nan, _ => ⟨1, 1⟩
    | _, NumField.nan => ⟨1, 1⟩
    | NumField.val w, NumField.val h => ⟨w / 100, h / 100⟩
  let zoom : Size :=
    if zoom.width ≤ 0 ∨ zoom.height ≤ 0 then ⟨1, 1⟩ else zoom
  (pan, zoom)

/-! ## `renderer.Renderer`: the frame clock -/

/-- `Renderer.__init__`: `self.framestep = 1 / framerate`, exact `Fraction`
arithmetic. -/
def framestep (framerate : ℚ) : ℚ := 1 / framerate

/-- The presentation timestamp before loop iteration `i` of `Renderer.render`:
`self.pts = Fraction(0)` initially, and `self.pts += self.framestep` at the
end of each iteration. -/
def pts (framerate : ℚ) : ℕ → ℚ
  | 0 => 0
  | i + 1 => pts framerate i + framestep framerate

/-- The frame counter before loop iteration `i`: `self.frame = 1` initially,
and `self.frame += 1` at the end of each iteration. -/
def frame_counter : ℕ → ℕ
  | 0 => 1
  | i + 1 => frame_counter i + 1

/-! ## `events.ShapeStatus` and legacy whiteboard shape events

`ShapeStatus` is a Python `Enum` whose text members are value aliases of the
draw members (`textCreated = 1` aliases `DRAW_START`, and so on), so it only
has three distinct members. -/

inductive ShapeStatus
  | DRAW_START
  | DRAW_UPDATE
  | DRAW_END
deriving DecidableEq

/-- The keys of an `events.ShapeEvent` dict that `ShapesRenderer.update_shape`
reads. `presentation` and `slide` model dict keys that may be absent (outer
`Option`) whose stored value may itself be `None` (inner `Option`). -/
structure SShapeEvent where
  presentation : Option (Option String)
  slide : Option (Option ℤ)
  shape_type : String
  shape_id : Option String
  shape_status : Option ShapeStatus
  points : List Position
deriving DecidableEq

/-- `renderer.presentation.Transform` (attrs class, structural equality). -/
structure Transform where
  padding : Size
  scale : ℚ
  size : Size
  pos : Position
  shapes_scale : ℚ
  shapes_size : Size
deriving DecidableEq

/-- The cached pattern of the legacy shapes layer. `ShapesRenderer.finalize_frame`
renders the current shape list under the current transform into a cairo group;
cairo drawing is deterministic, so the recorded pattern is captured by those
two inputs. -/
structure ShapesPattern where
  transform : Transform
  shapes : List SShapeEvent
deriving DecidableEq

/-- The fields of `renderer.whiteboard.ShapesRenderer` touched by
`update_shape` and `finalize_frame` (the cairo context and the
`presentation_slide` memo are not; they are omitted from the embedded state). -/
structure WBState where
  presentation : Option String
  slide : ℤ
  shapes : List (String × List (ℤ × List SShapeEvent))
  shapes_changed : Bool
  transform : Transform
  pattern : Option ShapesPattern
deriving DecidableEq

/-- `ShapesRenderer.ensure_shapes_structure`. -/
def ensure_shapes_structure (st : WBState) (presentation : String) (slide : ℤ) :
    WBState :=
  let shapes :=
    match dictLookup st.shapes presentation with
    | none => dictSet st.shapes presentation []
    | some _ => st.shapes
  let shapes :=
    match dictLookup shapes presentation with
    | none => shapes
    | some inner =>
      match dictLookup inner slide with
      | none => dictSet shapes presentation (dictSet inner slide [])
      | some _ => shapes
  { st with shapes := shapes }

/-- The shape deque `self.shapes[presentation][slide]`; total after
`ensure_shapes_structure` has run. -/
def shapesAt (st : WBState) (presentation : String) (slide : ℤ) :
    List SShapeEvent :=
  ((dictLookup st.shapes presentation).bind fun inner => dictLookup inner slide).getD []

/-- Store the shape deque back at `self.shapes[presentation][slide]`. -/
def setShapesAt (st : WBState) (presentation : String) (slide : ℤ)
    (deque : List SShapeEvent) : WBState :=
  let inner := (dictLookup st.shapes presentation).getD []
  { st with shapes := dictSet st.shapes presentation (dictSet inner slide deque) }

/-- The `prev_index` computation of `ShapesRenderer.update_shape`: the index of
the previous version of the shape, found by id when the event has one, else by
the "horrible hack" comparing the first point and type of the last shape
(Python index `-1`, i.e. `length - 1` here). -/
def prev_index (deque : List SShapeEvent) (event : SShapeEvent) : Option ℕ :=
  match event.shape_id with
  | some _ => deque.findIdx? fun x => x.shape_id = event.shape_id
  | none =>
    if h : 0 < deque.length then
      let prev_shape := deque.getLast (List.length_pos.mp h)
      if prev_shape.points.head? = event.points.head? ∧
          prev_shape.shape_type = event.shape_type then
        some (deque.length - 1)
      else none
    else none

/-- `ShapesRenderer.update_shape`. -/
def update_shape (st : WBState) (event : SShapeEvent) : WBState :=
  let presentation : Option String :=
    match event.presentation with
    | some v => v
    | none => st.presentation
  let slide : Option ℤ :=
    match event.slide with
    | some v => v
    | none => some st.slide
  match presentation, slide with
  | none, _ => st
  | _, none => st
  | some presentation, some slide =>
    let st := ensure_shapes_structure st presentation slide
    if event.slide = none ∧ event.shape_type = "text" ∧
        event.shape_status = some ShapeStatus.DRAW_END then
      st
    else
      let deque := shapesAt st presentation slide
      match prev_index deque event with
      | some i =>
        let event :=
          if event.shape_type = "pencil" ∧
              event.shape_status = some ShapeStatus.DRAW_UPDATE then
            match deque[i]? with
            | some prev_shape => { event with points := prev_shape.points ++ event.points }
            | none => event
          else event
        let st := setShapesAt st presentation slide (deque.set i event)
        { st with shapes_changed := true }
      | none =>
        let st := setShapesAt st presentation slide (deque ++ [event])
        { st with shapes_changed := true }

/-- `ShapesRenderer.update_shape` with the text/`DRAW_END` page-info check
removed; used to state that the check is unreachable for parser-produced
events. -/
def update_shape_no_text_check (st : WBState) (event : SShapeEvent) : WBState :=
  let presentation : Option String :=
    match event.presentation with
    | some v => v
    | none => st.presentation
  let slide : Option ℤ :=
    match event.slide with
    | some v => v
    | none => some st.slide
  match presentation, slide with
  | none, _ => st
  | _, none => st
  | some presentation, some slide =>
    let st := ensure_shapes_structure st presentation slide
    let deque := shapesAt st presentation slide
    match prev_index deque event with
    | some i =>
      let event :=
        if event.shape_type = "pencil" ∧
            event.shape_status = some ShapeStatus.DRAW_UPDATE then
          match deque[i]? with
          | some prev_shape => { event with points := prev_shape.points ++ event.points }
          | none => event
        else event
      let st := setShapesAt st presentation slide (deque.set i event)
      { st with shapes_changed := true }
    | none =>
      let st := setShapesAt st presentation slide (deque ++ [event])
      { st with shapes_changed := true }

/-- The common key-setting part of `events.parse_shape`: it unconditionally
stores the `presentation` and `slide` keys (with possibly-`None` values from
`xml_subelement_opt` / `xml_subelement_shape_slide`) before any later parse
error can be raised, so every event it produces has both keys present. -/
structure ParsedShapeEvent where
  presentation : Option String
  slide : Option ℤ
  shape_type : String
  shape_id : Option String
  shape_status : Option ShapeStatus
  points : List Position
deriving DecidableEq

/-- The event dict built by `events.parse_shape`: both the `presentation` and
`slide` keys are always present. -/
def ParsedShapeEvent.toEvent (p : ParsedShapeEvent) : SShapeEvent :=
  { presentation := some p.presentation
    slide := some p.slide
    shape_type := p.shape_type
    shape_id := p.shape_id
    shape_status := p.shape_status
    points := p.points }

/-- The slide-lookup part of `ShapesRenderer.finalize_frame`: `None` exactly
when `self.presentation is None or not self.presentation in self.shapes or
not self.slide in self.shapes[self.presentation]`. -/
def wb_renderable (st : WBState) : Option (List SShapeEvent) :=
  match st.presentation with
  | none => none
  | some presentation =>
    match dictLookup st.shapes presentation with
    | none => none
    | some inner => dictLookup inner st.slide

/-- `ShapesRenderer.finalize_frame`. The `try`/`finally` resets
`shapes_changed` on every path, including the early returns. -/
def wb_finalize_frame (st : WBState) (transform : Transform) : WBState × Bool :=
  let result : WBState × Bool :=
    if st.shapes_changed = false ∧ st.transform = transform then
      (st, false)
    else
      let st := { st with transform := transform }
      match wb_renderable st with
      | none =>
        if st.pattern.isSome then
          ({ st with pattern := none }, true)
        else
          (st, false)
      | some deque =>
        ({ st with pattern := some ⟨transform, deque⟩ }, true)
  ({ result.1 with shapes_changed := false }, result.2)

/-! ## `renderer.tldraw`: the tldraw whiteboard renderer

The shape classes, the cattrs `converter` structuring hooks, and the
`TldrawRenderer` event/finalize methods of `renderer/tldraw/__init__.py`.
The `cached_bounds`/`cached_path`/`cached_outline_path` attributes are
render-time caches of cairo objects that default to `None` and are never
populated from event data; they are omitted from the embedded records. -/

namespace tldrawR

/-- `SizeStyle` enum of the tldraw renderer. -/
inductive SizeStyle
  | SMALL
  | MEDIUM
  | LARGE
deriving DecidableEq

/-- `SizeStyle(value)`: cattrs structures an enum from its string value. -/
def SizeStyle.fromString : String → Option SizeStyle
  | "small" => some SizeStyle.SMALL
  | "medium" => some SizeStyle.MEDIUM
  | "large" => some SizeStyle.LARGE
  | _ => none

/-- `ColorStyle` enum of the tldraw renderer. -/
inductive ColorStyle
  | WHITE
  | LIGHT_GRAY
  | GRAY
  | BLACK
  | GREEN
  | CYAN
  | BLUE
  | INDIGO
  | VIOLET
  | RED
  | ORANGE
  | YELLOW
deriving DecidableEq

/-- `ColorStyle(value)`. -/
def ColorStyle.fromString : String → Option ColorStyle
  | "white" => some ColorStyle.WHITE
  | "lightGray" => some ColorStyle.LIGHT_GRAY
  | "gray" => some ColorStyle.GRAY
  | "black" => some ColorStyle.BLACK
  | "green" => some ColorStyle.GREEN
  | "cyan" => some ColorStyle.CYAN
  | "blue" => some ColorStyle.BLUE
  | "indigo" => some ColorStyle.INDIGO
  | "violet" => some ColorStyle.VIOLET
  | "red" => some ColorStyle.RED
  | "orange" => some ColorStyle.ORANGE
  | "yellow" => some ColorStyle.YELLOW
  | _ => none

/-- `DashStyle` enum of the tldraw renderer. -/
inductive DashStyle
  | DRAW
  | SOLID
  | DASHED
  | DOTTED
deriving DecidableEq

/-- `DashStyle(value)`. -/
def DashStyle.fromString : String → Option DashStyle
  | "draw" => some DashStyle.DRAW
  | "solid" => some DashStyle.SOLID
  | "dashed" => some DashStyle.DASHED
  | "dotted" => some DashStyle.DOTTED
  | _ => none

/-- `FontStyle` enum of the tldraw renderer (including the `erif` typo member). -/
inductive FontStyle
  | SCRIPT
  | SANS
  | ERIF
  | SERIF
  | MONO
deriving DecidableEq

/-- `FontStyle(value)`. -/
def FontStyle.fromString : String → Option FontStyle
  | "script" => some FontStyle.SCRIPT
  | "sans" => some FontStyle.SANS
  | "erif" => some FontStyle.ERIF
  | "serif" => some FontStyle.SERIF
  | "mono" => some FontStyle.MONO
  | _ => none

/-- `AlignStyle` enum of the tldraw renderer. -/
inductive AlignStyle
  | START
  | MIDDLE
  | END
  | JUSTIFY
deriving DecidableEq

/-- `AlignStyle(value)`. -/
def AlignStyle.fromString : String → Option AlignStyle
  | "start" => some AlignStyle.START
  | "middle" => some AlignStyle.MIDDLE
  | "end" => some AlignStyle.END
  | "justify" => some AlignStyle.JUSTIFY
  | _ => none

/-- `Style` attrs class; every field has a default. -/
structure Style where
  color : ColorStyle := ColorStyle.BLACK
  size : SizeStyle := SizeStyle.SMALL
  dash : DashStyle := DashStyle.DRAW
  isFilled : Bool := false
  scale : ℚ := 1
  font : FontStyle := FontStyle.SCRIPT
  textAlign : AlignStyle := AlignStyle.MIDDLE
deriving DecidableEq

/-- `DrawShape` (the `BaseShape` fields `style`/`parentId`/`childIndex`/`point`
followed by its own fields, as attrs lays them out). -/
structure DrawShape where
  style : Style
  parentId : String
  childIndex : ℚ
  point : Position
  points : List (ℚ × ℚ)
  isComplete : Bool
  size : Size
  rotation : ℚ
deriving DecidableEq

/-- `RectangleShape`. -/
structure RectangleShape where
  style : Style
  parentId : String
  childIndex : ℚ
  point : Position
  label : Option String
  labelPoint : Position
  size : Size
  rotation : ℚ
deriving DecidableEq

/-- `EllipseShape`. -/
structure EllipseShape where
  style : Style
  parentId : String
  childIndex : ℚ
  point : Position
  radius : ℚ × ℚ
  label : Option String
  labelPoint : Position
  size : Size
  rotation : ℚ
deriving DecidableEq

/-- `TriangleShape`. -/
structure TriangleShape where
  style : Style
  parentId : String
  childIndex : ℚ
  point : Position
  label : Option String
  labelPoint : Position
  size : Size
  rotation : ℚ
deriving DecidableEq

/-- `ArrowHandle`. -/
structure ArrowHandle where
  point : Position
deriving DecidableEq

/-- `ArrowHandles`; `end_` embeds the Python field named `end`. -/
structure ArrowHandles where
  start : ArrowHandle
  end_ : ArrowHandle
  bend : ArrowHandle
deriving DecidableEq

/-- `ArrowShape`. -/
structure ArrowShape where
  style : Style
  parentId : String
  childIndex : ℚ
  point : Position
  label : Option String
  labelPoint : Position
  bend : ℚ
  handles : ArrowHandles
  size : Size
  rotation : ℚ
deriving DecidableEq

/-- `TextShape`. -/
structure TextShape where
  style : Style
  parentId : String
  childIndex : ℚ
  point : Position
  text : String
  size : Size
  rotation : ℚ
deriving DecidableEq

/-- `GroupShape`. -/
structure GroupShape where
  style : Style
  parentId : String
  childIndex : ℚ
  point : Position
  children : List String
  size : Size
  rotation : ℚ
deriving DecidableEq

/-- `StickyShape`. -/
structure StickyShape where
  style : Style
  parentId : String
  childIndex : ℚ
  point : Position
  text : String
  size : Size
  rotation : ℚ
deriving DecidableEq

/-- The `Shape` union of the tldraw renderer. -/
inductive Shape
  | draw (s : DrawShape)
  | rectangle (s : RectangleShape)
  | ellipse (s : EllipseShape)
  | triangle (s : TriangleShape)
  | arrow (s : ArrowShape)
  | text (s : TextShape)
  | group (s : GroupShape)
  | sticky (s : StickyShape)
deriving DecidableEq

/-- The keys of a `StyleData` dict that structuring a `Style` consumes
(cattrs ignores unknown keys). An outer `Option` marks key presence. -/
structure StyleData where
  color : Option String
  size : Option String
  dash : Option String
  isFilled : Option Bool
  scale : Option ℚ
  font : Option String
  textAlign : Option String
deriving DecidableEq

/-- A handle entry of the `handles` dict: an `ArrowHandle` needs its `point`. -/
structure HandleData where
  point : Option (ℚ × ℚ)
deriving DecidableEq

/-- The `handles` dict of an arrow shape. -/
structure HandlesData where
  start : Option HandleData
  end_ : Option HandleData
  bend : Option HandleData
deriving DecidableEq

/-- The keys of an `events.tldraw.ShapeData` JSON document consumed by the
tldraw renderer's structuring hooks. An outer `Option` marks key presence;
`label` additionally carries a nullable value. Position-valued entries are
`[x, y]` lists, handled by `position_structure_hook` / `size_structure_hook`. -/
structure ShapeData where
  type : Option String
  style : Option StyleData
  parentId : Option String
  childIndex : Option ℚ
  point : Option (ℚ × ℚ)
  points : Option (List (ℚ × ℚ))
  isComplete : Option Bool
  size : Option (ℚ × ℚ)
  rotation : Option ℚ
  label : Option (Option String)
  labelPoint : Option (ℚ × ℚ)
  radius : Option (ℚ × ℚ)
  bend : Option ℚ
  handles : Option HandlesData
  text : Option String
  children : Option (List String)
deriving DecidableEq

/-- A `ShapeData` with no keys at all; concrete documents override fields. -/
def ShapeData.empty : ShapeData :=
  ⟨none, none, none, none, none, none, none, none, none, none, none, none, none,
    none, none, none⟩

/-- cattrs structuring of a required attrs field (one that has no default):
the key must be present or the class fails to structure. -/
def req {α : Type} (field : String) : Option α → Except String α
  | some v => Except.ok v
  | none => Except.error ("missing required field " ++ field)

/-- cattrs structuring of an enum from its string value; an unknown value is
a `ValueError`. -/
def reqEnum {α : Type} (field : String) (fromString : String → Option α)
    (dflt : α) : Option String → Except String α
  | none => Except.ok dflt
  | some s =>
    match fromString s with
    | some v => Except.ok v
    | none => Except.error ("invalid value for " ++ field)

/-- cattrs structuring of `Style`: every field has a default, enum fields are
structured from their string values. -/
def structure_Style (d : StyleData) : Except String Style := do
  let color ← reqEnum "color" ColorStyle.fromString ColorStyle.BLACK d.color
  let size ← reqEnum "size" SizeStyle.fromString SizeStyle.SMALL d.size
  let dash ← reqEnum "dash" DashStyle.fromString DashStyle.DRAW d.dash
  let font ← reqEnum "font" FontStyle.fromString FontStyle.SCRIPT d.font
  let textAlign ← reqEnum "textAlign" AlignStyle.fromString AlignStyle.MIDDLE d.textAlign
  Except.ok
    { color := color
      size := size
      dash := dash
      isFilled := d.isFilled.getD false
      scale := d.scale.getD 1
      font := font
      textAlign := textAlign }

/-- The `style` field of every shape class is required. -/
def reqStyle (o : ShapeData) : Except String Style :=
  match o.style with
  | some sd => structure_Style sd
  | none => Except.error "missing required field style"

/-- `position_structure_hook` applied to a required position-valued field. -/
def reqPosition (field : String) (o : Option (ℚ × ℚ)) : Except String Position := do
  let p ← req field o
  Except.ok ⟨p.1, p.2⟩

/-- `size_structure_hook` applied to a required size-valued field. -/
def reqSize (field : String) (o : Option (ℚ × ℚ)) : Except String Size := do
  let p ← req field o
  Except.ok ⟨p.1, p.2⟩

/-- `converter.structure(o, DrawShape)`. -/
def structure_DrawShape (o : ShapeData) : Except String DrawShape := do
  let style ← reqStyle o
  let parentId ← req "parentId" o.parentId
  let childIndex ← req "childIndex" o.childIndex
  let point ← reqPosition "point" o.point
  let points ← req "points" o.points
  let isComplete ← req "isComplete" o.isComplete
  let size ← reqSize "size" o.size
  let rotation ← req "rotation" o.rotation
  Except.ok ⟨style, parentId, childIndex, point, points, isComplete, size, rotation⟩

/-- `converter.structure(o, RectangleShape)`. -/
def structure_RectangleShape (o : ShapeData) : Except String RectangleShape := do
  let style ← reqStyle o
  let parentId ← req "parentId" o.parentId
  let childIndex ← req "childIndex" o.childIndex
  let point ← reqPosition "point" o.point
  let label ← req "label" o.label
  let labelPoint ← reqPosition "labelPoint" o.labelPoint
  let size ← reqSize "size" o.size
  let rotation ← req "rotation" o.rotation
  Except.ok ⟨style, parentId, childIndex, point, label, labelPoint, size, rotation⟩

/-- `converter.structure(o, EllipseShape)`. -/
def structure_EllipseShape (o : ShapeData) : Except String EllipseShape := do
  let style ← reqStyle o
  let parentId ← req "parentId" o.parentId
  let childIndex ← req "childIndex" o.childIndex
  let point ← reqPosition "point" o.point
  let radius ← req "radius" o.radius
  let label ← req "label" o.label
  let labelPoint ← reqPosition "labelPoint" o.labelPoint
  let size ← reqSize "size" o.size
  let rotation ← req "rotation" o.rotation
  Except.ok ⟨style, parentId, childIndex, point, radius, label, labelPoint, size, rotation⟩

/-- `converter.structure(o, TriangleShape)`. -/
def structure_TriangleShape (o : ShapeData) : Except String TriangleShape := do
  let style ← reqStyle o
  let parentId ← req "parentId" o.parentId
  let childIndex ← req "childIndex" o.childIndex
  let point ← reqPosition "point" o.point
  let label ← req "label" o.label
  let labelPoint ← reqPosition "labelPoint" o.labelPoint
  let size ← reqSize "size" o.size
  let rotation ← req "rotation" o.rotation
  Except.ok ⟨style, parentId, childIndex, point, label, labelPoint, size, rotation⟩

/-- `converter.structure` of one entry of the `handles` dict. -/
def structure_ArrowHandle (field : String) (o : Option HandleData) :
    Except String ArrowHandle := do
  let h ← req field o
  let p ← reqPosition "point" h.point
  Except.ok ⟨p⟩

/-- `converter.structure(o, ArrowShape)`. -/
def structure_ArrowShape (o : ShapeData) : Except String ArrowShape := do
  let style ← reqStyle o
  let parentId ← req "parentId" o.parentId
  let childIndex ← req "childIndex" o.childIndex
  let point ← reqPosition "point" o.point
  let label ← req "label" o.label
  let labelPoint ← reqPosition "labelPoint" o.labelPoint
  let bend ← req "bend" o.bend
  let hd ← req "handles" o.handles
  let hstart ← structure_ArrowHandle "start" hd.start
  let hend ← structure_ArrowHandle "end" hd.end_
  let hbend ← structure_ArrowHandle "bend" hd.bend
  let size ← reqSize "size" o.size
  let rotation ← req "rotation" o.rotation
  Except.ok
    ⟨style, parentId, childIndex, point, label, labelPoint, bend,
      ⟨hstart, hend, hbend⟩, size, rotation⟩

/-- `converter.structure(o, TextShape)`. -/
def structure_TextShape (o : ShapeData) : Except String TextShape := do
  let style ← reqStyle o
  let parentId ← req "parentId" o.parentId
  let childIndex ← req "childIndex" o.childIndex
  let point ← reqPosition "point" o.point
  let text ← req "text" o.text
  let size ← reqSize "size" o.size
  let rotation ← req "rotation" o.rotation
  Except.ok ⟨style, parentId, childIndex, point, text, size, rotation⟩

/-- `converter.structure(o, GroupShape)`. -/
def structure_GroupShape (o : ShapeData) : Except String GroupShape := do
  let style ← reqStyle o
  let parentId ← req "parentId" o.parentId
  let childIndex ← req "childIndex" o.childIndex
  let point ← reqPosition "point" o.point
  let children ← req "children" o.children
  let size ← reqSize "size" o.size
  let rotation ← req "rotation" o.rotation
  Except.ok ⟨style, parentId, childIndex, point, children, size, rotation⟩

/-- `converter.structure(o, StickyShape)`. -/
def structure_StickyShape (o : ShapeData) : Except String StickyShape := do
  let style ← reqStyle o
  let parentId ← req "parentId" o.parentId
  let childIndex ← req "childIndex" o.childIndex
  let point ← reqPosition "point" o.point
  let text ← req "text" o.text
  let size ← reqSize "size" o.size
  let rotation ← req "rotation" o.rotation
  Except.ok ⟨style, parentId, childIndex, point, text, size, rotation⟩

/-- `shape_structure_hook`: dispatch on `o["type"]` (raising `KeyError` when
the key is absent and an `Exception` for an unhandled type). -/
def shape_structure_hook (o : ShapeData) : Except String Shape :=
  match o.type with
  | none => Except.error "KeyError: type"
  | some t =>
    if t = "draw" then Shape.draw <$> structure_DrawShape o
    else if t = "rectangle" then Shape.rectangle <$> structure_RectangleShape o
    else if t = "ellipse" then Shape.ellipse <$> structure_EllipseShape o
    else if t = "triangle" then Shape.triangle <$> structure_TriangleShape o
    else if t = "arrow" then Shape.arrow <$> structure_ArrowShape o
    else if t = "text" then Shape.text <$> structure_TextShape o
    else if t = "group" then Shape.group <$> structure_GroupShape o
    else if t = "sticky" then Shape.sticky <$> structure_StickyShape o
    else Except.error ("Unhandled Tldraw shape type: " ++ t)

/-- The cached pattern of the tldraw layer: the shapes of the current slide
rendered under the current transform into a cairo group (cairo drawing is
deterministic, so those two inputs capture the recorded pattern). -/
structure TldrawPattern where
  transform : Transform
  shapes : List (String × Shape)
deriving DecidableEq

/-- `events.tldraw.AddShapeEvent`, the fields read by `add_shape_event`. -/
structure AddShapeEvent where
  presentation : String
  slide : ℤ
  id : String
  data : ShapeData
deriving DecidableEq

/-- The fields of `TldrawRenderer` touched by `add_shape_event` and
`finalize_frame` (the cairo context and the `presentation_slide` memo are
not; they are omitted). The per-slide `ValueSortedDict` is embedded as an
association list; it holds the same `id → Shape` bindings, only the
iteration order differs. -/
structure TState where
  presentation : Option String
  slide : Option ℤ
  shapes : List (String × List (ℤ × List (String × Shape)))
  shapes_changed : Bool
  transform : Transform
  pattern : Option TldrawPattern
deriving DecidableEq

/-- `TldrawRenderer.ensure_shape_structure`. -/
def ensure_shape_structure (st : TState) (presentation : String) (slide : ℤ) :
    TState :=
  let shapes :=
    match dictLookup st.shapes presentation with
    | none => dictSet st.shapes presentation []
    | some _ => st.shapes
  let shapes :=
    match dictLookup shapes presentation with
    | none => shapes
    | some inner =>
      match dictLookup inner slide with
      | none => dictSet shapes presentation (dictSet inner slide [])
      | some _ => shapes
  { st with shapes := shapes }

/-- The binding stored at `self.shapes[presentation][slide][id]`. -/
def lookupShape (st : TState) (presentation : String) (slide : ℤ) (id : String) :
    Option Shape :=
  ((dictLookup st.shapes presentation).bind fun inner =>
    dictLookup inner slide).bind fun d => dictLookup d id

/-- `TldrawRenderer.add_shape_event`: reject `image`-typed data, otherwise
structure a whole new shape from the JSON data and store it at
`self.shapes[presentation][slide][id]`, overwriting any existing binding.
A cattrs structuring failure propagates as an error. -/
def add_shape_event (st : TState) (event : AddShapeEvent) : Except String TState :=
  match event.data.type with
  | none => Except.error "KeyError: type"
  | some t =>
    if t = "image" then Except.ok st
    else do
      let shape ← shape_structure_hook event.data
      let st := ensure_shape_structure st event.presentation event.slide
      let inner := (dictLookup st.shapes event.presentation).getD []
      let d := (dictLookup inner event.slide).getD []
      Except.ok
        { st with
          shapes :=
            dictSet st.shapes event.presentation
              (dictSet inner event.slide (dictSet d event.id shape))
          shapes_changed := true }

/-- The slide-lookup part of `TldrawRenderer.finalize_frame`: `None` exactly
when `presentation is None or slide is None or not presentation in
self.shapes or not slide in self.shapes[presentation]`. -/
def tldraw_renderable (st : TState) : Option (List (String × Shape)) :=
  match st.presentation, st.slide with
  | none, _ => none
  | _, none => none
  | some presentation, some slide =>
    match dictLookup st.shapes presentation with
    | none => none
    | some inner => dictLookup inner slide

/-- `TldrawRenderer.finalize_frame`. Unlike the legacy shapes layer, the
"nothing to draw" branch clears the cached pattern and returns `False`, and
only the successful render path resets `shapes_changed`. -/
def tldraw_finalize_frame (st : TState) (transform : Transform) : TState × Bool :=
  if st.shapes_changed = false ∧ st.transform = transform then
    (st, false)
  else
    let st := { st with transform := transform }
    match tldraw_renderable st with
    | none => ({ st with pattern := none }, false)
    | some shapes =>
      ({ st with pattern := some ⟨transform, shapes⟩, shapes_changed := false }, true)

end tldrawR

/-! ## `renderer.tldraw.utils` and `renderer.tldraw.shape.draw` -/

namespace utils

/-- `SizeStyle` enum of `renderer/tldraw/utils.py` (v1 and v2 members). -/
inductive SizeStyle
  | SMALL
  | S
  | MEDIUM
  | M
  | LARGE
  | L
  | XL
deriving DecidableEq

/-- `STROKE_WIDTHS` table of `renderer/tldraw/utils.py`. -/
def STROKE_WIDTHS : SizeStyle → ℚ
  | SizeStyle.SMALL => 2
  | SizeStyle.S => 2
  | SizeStyle.MEDIUM => 7 / 2
  | SizeStyle.M => 7 / 2
  | SizeStyle.LARGE => 5
  | SizeStyle.L => 5
  | SizeStyle.XL => 13 / 2

end utils

/-- The `very_small` test of `finalize_draw` in
`renderer/tldraw/shape/draw.py`, written there as the Python chained
comparison `size.width <= stroke_width / 2 and size.height <= stroke_width < 2`,
which means `size.width ≤ w/2 and (size.height ≤ w and w < 2)`. -/
def very_small (size : Size) (stroke_width : ℚ) : Bool :=
  decide (size.width ≤ stroke_width / 2) &&
    (decide (size.height ≤ stroke_width) && decide (stroke_width < 2))

/-- The "very small" condition as the spec states it: the bounding box is at
most half the stroke width on each axis. -/
def very_small_spec (size : Size) (stroke_width : ℚ) : Bool :=
  decide (size.width ≤ stroke_width / 2) && decide (size.height ≤ stroke_width / 2)

/-! ## `renderer.tldraw.vec` and `renderer.tldraw.shape.arrow_v2` geometry

These functions use `math.hypot` (a square root) and are embedded over `ℝ`. -/

namespace vec

/-- `vec.add`. -/
def add (a b : ℝ × ℝ) : ℝ × ℝ := (a.1 + b.1, a.2 + b.2)

/-- `vec.mul`. -/
def mul (a : ℝ × ℝ) (n : ℝ) : ℝ × ℝ := (a.1 * n, a.2 * n)

/-- `vec.div`. -/
noncomputable def div (a : ℝ × ℝ) (n : ℝ) : ℝ × ℝ := (a.1 / n, a.2 / n)

/-- `vec.per`. -/
def per (a : ℝ × ℝ) : ℝ × ℝ := (a.2, -a.1)

/-- `vec.vlen`, i.e. `hypot(a[0], a[1])`. -/
noncomputable def vlen (a : ℝ × ℝ) : ℝ := Real.sqrt (a.1 ^ 2 + a.2 ^ 2)

/-- `vec.uni`. -/
noncomputable def uni (a : ℝ × ℝ) : ℝ × ℝ := div a (vlen a)

/-- `vec.med`. -/
noncomputable def med (a b : ℝ × ℝ) : ℝ × ℝ := mul (add a b) (1 / 2)

end vec

/-- `events.helpers.Position` with real coordinates, as used by the
`ℝ`-embedded geometry. -/
structure PositionR where
  x : ℝ
  y : ℝ

/-- `arrow_v2.get_midpoint`: the v2 arrow bend handle derived from the `start`
and `end` handles and the `bend` scalar (`endp` embeds the parameter named
`end`). -/
noncomputable def get_midpoint (start endp : PositionR) (bend : ℝ) : PositionR :=
  let mid : ℝ × ℝ := ((start.x + endp.x) / 2, (start.y + endp.y) / 2)
  let unit_vector := vec.uni (endp.x - start.x, endp.y - start.y)
  let unit_rotated : ℝ × ℝ := (unit_vector.2, -unit_vector.1)
  let bend_offset : ℝ × ℝ := (unit_rotated.1 * -bend, unit_rotated.2 * -bend)
  ⟨mid.1 + bend_offset.1, mid.2 + bend_offset.2⟩

/-- The midpoint of two positions, `vec.med` lifted to `PositionR`. -/
noncomputable def med_position (a b : PositionR) : PositionR :=
  ⟨(vec.med (a.x, a.y) (b.x, b.y)).1, (vec.med (a.x, a.y) (b.x, b.y)).2⟩

/-! ## `renderer.tldraw.utils.short_angle_dist` -/

/-- Python float `%` for a positive modulus: the remainder takes the sign of
the divisor, i.e. `x % m = x - m * floor (x / m)`. -/
noncomputable def pymod (x m : ℝ) : ℝ := x - m * ⌊x / m⌋

/-- `math.pi * 2`, the `max` of `short_angle_dist`. -/
noncomputable def tau : ℝ := Real.pi * 2

/-- `utils.short_angle_dist`. -/
noncomputable def short_angle_dist (a0 a1 : ℝ) : ℝ :=
  let da := pymod (a1 - a0) tau
  pymod (2 * da) tau - da

/-- The spec's reference definition of the short angle distance:
`((a1 - a0) mod τ + τ/2) mod τ − τ/2`. -/
noncomputable def short_angle_dist_spec (a0 a1 : ℝ) : ℝ :=
  pymod (pymod (a1 - a0) tau + tau / 2) tau - tau / 2

/-! ## `renderer.presentation.PresentationRenderer` and `renderer.cursor.CursorRenderer`

Their per-frame `finalize_frame` methods, embedded at the level of the state
they read and write. The bodies that do file lookups and cairo/Poppler
rendering cannot run in a shallow embedding; they are taken as parameters
(`load_source`, `load_page`, `render`) over abstract source/page/pattern
types, which makes the changed-flag theorems hold for every possible outcome
of that I/O. The pure slide-transform arithmetic is embedded concretely. -/

/-- `renderer.presentation.ImageType`. -/
inductive ImageType
  | MISSING
  | IMAGE
  | PDF
deriving DecidableEq

/-- `renderer.presentation.DRAWING_SIZE = 1200`. -/
def DRAWING_SIZE : ℚ := 1200

/-- `renderer.presentation.TLDRAW_DRAWING_SIZE = Size(2048, 1536)`. -/
def TLDRAW_DRAWING_SIZE : Size := ⟨2048, 1536⟩

/-- The fields of `PresentationRenderer` read or written by `finalize_frame`.
`σ` is the type of loaded source documents (pixbuf/Poppler document), `π` of
loaded pages, `ρ` of rendered cairo patterns. -/
structure PresState (σ π ρ : Type) where
  presentation : Option String
  slide : ℤ
  pan : Position
  zoom : Size
  size : Size
  tldraw_whiteboard : Bool
  hide_logo : Bool
  filename : Option String
  filetype : ImageType
  source : Option σ
  page : Option π
  page_size : Option Size
  trans : Transform
  pattern : Option ρ
  presentation_changed : Bool
  slide_changed : Bool
  pan_zoom_changed : Bool
deriving DecidableEq

/-- The pan/zoom block of `PresentationRenderer.finalize_frame`: the fallback
page size and the pure arithmetic computing the slide `Transform`. -/
def compute_transform {σ π ρ : Type} (st : PresState σ π ρ) : PresState σ π ρ :=
  let page_size := st.page_size.getD st.size
  let size : Size := ⟨page_size.width * st.zoom.width, page_size.height * st.zoom.height⟩
  let scale := min (st.size.width / size.width) (st.size.height / size.height)
  let scaled_size : Size := ⟨size.width * scale, size.height * scale⟩
  let padding : Size :=
    ⟨(st.size.width - scaled_size.width) / 2, (st.size.height - scaled_size.height) / 2⟩
  let shapes_scale :=
    if st.tldraw_whiteboard then
      max (page_size.height / TLDRAW_DRAWING_SIZE.height)
        (page_size.width / TLDRAW_DRAWING_SIZE.width)
    else
      max (page_size.width / DRAWING_SIZE) (page_size.height / DRAWING_SIZE)
  let shapes_size : Size := ⟨page_size.width / shapes_scale, page_size.height / shapes_scale⟩
  let pos : Position :=
    if st.tldraw_whiteboard then ⟨-st.pan.x * shapes_scale, -st.pan.y * shapes_scale⟩
    else ⟨page_size.width * -st.pan.x, page_size.height * -st.pan.y⟩
  { st with
    page_size := some page_size
    trans := ⟨padding, scale, size, pos, shapes_scale, shapes_size⟩ }

/-- `PresentationRenderer.finalize_frame`: `needs_render` accumulates over
the source-loading, page-loading and pan/zoom blocks; the pattern is
re-rendered exactly when `needs_render` holds; the three dirty flags are
reset and `needs_render` is returned. `load_source` is the body that finds
and loads the presentation file, `load_page` the body that loads the current
page, `render` the cairo rendering of the transformed slide. -/
def pres_finalize_frame {σ π ρ : Type}
    (load_source load_page : PresState σ π ρ → PresState σ π ρ)
    (render : PresState σ π ρ → ρ) (st : PresState σ π ρ) :
    PresState σ π ρ × Bool :=
  let needs_render := st.presentation_changed || st.source.isNone
  let st := if needs_render then load_source st else st
  let needs_render2 := st.slide_changed || needs_render
  let st := if needs_render2 then load_page st else st
  let needs_render3 := st.pan_zoom_changed || needs_render2
  let st := if needs_render3 then compute_transform st else st
  let st := if needs_render3 then { st with pattern := some (render st) } else st
  ({ st with
      presentation_changed := false
      slide_changed := false
      pan_zoom_changed := false },
    needs_render3)

/-- `renderer.cursor.Cursor` (attrs class). -/
structure Cursor where
  label : Option String
  position : Option Position
deriving DecidableEq

/-- The cached pattern of the cursor layer: the legacy cursor and the
per-user cursors rendered under the given transform (cairo drawing is
deterministic, so the recorded pattern is captured by its inputs). -/
structure CursorPattern where
  transform : Transform
  legacy_cursor : Cursor
  cursors : List (String × Cursor)
  presenter : Option String
  tldraw_whiteboard : Bool
  radius : ℚ
deriving DecidableEq

/-- The fields of `CursorRenderer` read or written by `finalize_frame`; its
`transform` starts as `None`. -/
structure CursorState where
  cursors : List (String × Cursor)
  legacy_cursor : Cursor
  cursors_changed : Bool
  presenter : Option String
  transform : Option Transform
  tldraw_whiteboard : Bool
  pattern : Option CursorPattern
  radius : ℚ
deriving DecidableEq

/-- `CursorRenderer.finalize_frame`: early `False` when nothing changed and
the transform is the same, otherwise re-render the cursors into the cached
pattern, reset the dirty flag and return `True`. -/
def cursor_finalize_frame (st : CursorState) (transform : Transform) :
    CursorState × Bool :=
  if st.cursors_changed = false ∧ st.transform = some transform then
    (st, false)
  else
    let st := { st with transform := some transform }
    ({ st with
        pattern := some
          ⟨transform, st.legacy_cursor, st.cursors, st.presenter,
            st.tldraw_whiteboard, st.radius⟩
        cursors_changed := false },
      true)

/-! ## Concrete instances used in the theorems below -/

/-- A neutral transform value. -/
def transform0 : Transform := ⟨⟨0, 0⟩, 1, ⟨0, 0⟩, ⟨0, 0⟩, 1, ⟨0, 0⟩⟩

/-- The state of a fresh `ShapesRenderer` (per its `__init__`). -/
def wb_init : WBState :=
  { presentation := none
    slide := 0
    shapes := []
    shapes_changed := false
    transform := transform0
    pattern := none }

/-- C1 scenario, first event: a pencil `DRAW_START` carrying two points. -/
def c1_draw_start : SShapeEvent :=
  { presentation := some (some "pres")
    slide := some (some 1)
    shape_type := "pencil"
    shape_id := some "shape-a"
    shape_status := some ShapeStatus.DRAW_START
    points := [⟨10, 10⟩, ⟨20, 20⟩] }

/-- C1 scenario, second event: a pencil `DRAW_UPDATE` carrying one point. -/
def c1_draw_update : SShapeEvent :=
  { c1_draw_start with
    shape_status := some ShapeStatus.DRAW_UPDATE
    points := [⟨30, 30⟩] }

/-- C1 scenario, third event: a pencil `DRAW_END` carrying two points. -/
def c1_draw_end : SShapeEvent :=
  { c1_draw_start with
    shape_status := some ShapeStatus.DRAW_END
    points := [⟨30, 30⟩, ⟨40, 40⟩] }

/-- The state after the `DRAW_START` and `DRAW_UPDATE` events. -/
def c1_after_update : WBState :=
  update_shape (update_shape wb_init c1_draw_start) c1_draw_update

/-- The state after all three C1 events. -/
def c1_final : WBState := update_shape c1_after_update c1_draw_end

/-- The stored point list of the (single) shape on the C1 slide. -/
def c1_stored_points (st : WBState) : Option (List Position) :=
  (shapesAt st "pres" 1).head?.map SShapeEvent.points

/-- A parser-produced shape event without page info (`pageNumber` absent, so
`slide` is `None`), used to witness the C10 theorem. -/
def c10_event : ParsedShapeEvent :=
  { presentation := some "pres"
    slide := none
    shape_type := "text"
    shape_id := some "shape-b"
    shape_status := some ShapeStatus.DRAW_END
    points := [⟨1, 1⟩] }

/-- The C6 pan/zoom input: `widthRatio=0, heightRatio=0, xOffset=NaN,
yOffset=NaN`. -/
def c6_event : PanZoomRaw :=
  { x_offset := NumField.nan
    y_offset := NumField.nan
    width_ratio := NumField.val 0
    height_ratio := NumField.val 0 }

/-- A concrete tldraw shape (a `TextShape` with default style). -/
def c3_shape : tldrawR.Shape :=
  tldrawR.Shape.text ⟨{}, "1", 1, ⟨0, 0⟩, "hi", ⟨0, 0⟩, 0⟩

/-- A tldraw layer state with a previously rendered pattern whose current
slide is unknown: `finalize_frame` clears the pattern and returns `False`. -/
def c3_tldraw_state : tldrawR.TState :=
  { presentation := some "pres"
    slide := none
    shapes := []
    shapes_changed := true
    transform := transform0
    pattern := some ⟨transform0, [("a", c3_shape)]⟩ }

/-- A legacy shapes layer state whose current slide has an (empty) shape
deque and no cached pattern: `finalize_frame` renders and returns `True`. -/
def c3_wb_state : WBState :=
  { presentation := some "pres"
    slide := 0
    shapes := [("pres", [(0, [])])]
    shapes_changed := true
    transform := transform0
    pattern := none }

/-- A presentation layer state with a pending presentation change and no
cached pattern, instantiated at trivial source/page/pattern types:
`finalize_frame` re-renders and returns `True`. -/
def c3_pres_state : PresState Unit Unit Unit :=
  { presentation := some "pres"
    slide := 0
    pan := ⟨0, 0⟩
    zoom := ⟨1, 1⟩
    size := ⟨1920, 1080⟩
    tldraw_whiteboard := false
    hide_logo := false
    filename := none
    filetype := ImageType.MISSING
    source := none
    page := none
    page_size := none
    trans := transform0
    pattern := none
    presentation_changed := true
    slide_changed := false
    pan_zoom_changed := false }

/-- A cursor layer state with a moved cursor and no cached pattern:
`finalize_frame` re-renders and returns `True`. -/
def c3_cursor_state : CursorState :=
  { cursors := [("user1", ⟨some "User", some ⟨1 / 2, 1 / 2⟩⟩)]
    legacy_cursor := ⟨none, none⟩
    cursors_changed := true
    presenter := some "user1"
    transform := none
    tldraw_whiteboard := false
    pattern := none
    radius := 1 / 200 }

/-- The state of a fresh `TldrawRenderer` (per its class defaults). -/
def tldraw_init : tldrawR.TState :=
  { presentation := none
    slide := none
    shapes := []
    shapes_changed := false
    transform := transform0
    pattern := none }

/-- A complete `draw` shape JSON document: every field the `DrawShape` attrs
class requires is present. -/
def c4_full_draw_data : tldrawR.ShapeData :=
  { tldrawR.ShapeData.empty with
    type := some "draw"
    style := some ⟨some "black", some "small", some "draw", some false, some 1, none, none⟩
    parentId := some "1"
    childIndex := some 1
    point := some (5, 5)
    points := some [(0, 0), (1, 1)]
    isComplete := some true
    size := some (10, 10)
    rotation := some 0 }

/-- The shape that structuring `c4_full_draw_data` produces. -/
def c4_shape : tldrawR.Shape :=
  tldrawR.Shape.draw ⟨{}, "1", 1, ⟨5, 5⟩, [(0, 0), (1, 1)], true, ⟨10, 10⟩, 0⟩

/-- A partial update document for the same shape: only `type` and a new
`point` are present. -/
def c4_partial_data : tldrawR.ShapeData :=
  { tldrawR.ShapeData.empty with
    type := some "draw"
    point := some (7, 7) }

/-- The `add_shape` event that first creates shape `s1`. -/
def c4_event_full : tldrawR.AddShapeEvent := ⟨"pres", 1, "s1", c4_full_draw_data⟩

/-- A later `add_shape` event for the existing id `s1` with partial data. -/
def c4_event_partial : tldrawR.AddShapeEvent := ⟨"pres", 1, "s1", c4_partial_data⟩

/-- An `add_shape` event whose data is `image`-typed. -/
def c4_event_image : tldrawR.AddShapeEvent :=
  ⟨"pres", 1, "s2", { tldrawR.ShapeData.empty with type := some "image" }⟩

/-- The tldraw state holding shape `s1` (the result of `add_shape_event` on a
fresh renderer with `c4_event_full`). -/
def c4_state : tldrawR.TState :=
  { tldraw_init with
    shapes := [("pres", [(1, [("s1", c4_shape)])])]
    shapes_changed := true }

/-! ## Helper lemmas -/

theorem dictLookup_dictSet_self {κ α : Type} [DecidableEq κ]
    (d : List (κ × α)) (k : κ) (v : α) : dictLookup (dictSet d k v) k = some v := by
  induction d with
  | nil => simp [dictSet, dictLookup]
  | cons hd tl ih =>
    obtain ⟨k2, v2⟩ := hd
    by_cases h : k2 = k
    · simp [dictSet, dictLookup, h]
    · simp [dictSet, dictLookup, h, ih]

theorem wb_renderable_update (st : WBState) (tr : Transform) (sc : Bool)
    (pat : Option ShapesPattern) :
    wb_renderable { st with transform := tr, shapes_changed := sc, pattern := pat } =
      wb_renderable st := rfl

theorem tldraw_renderable_update (ts : tldrawR.TState) (tr : Transform) (sc : Bool)
    (pat : Option tldrawR.TldrawPattern) :
    tldrawR.tldraw_renderable
        { ts with transform := tr, shapes_changed := sc, pattern := pat } =
      tldrawR.tldraw_renderable ts := rfl

theorem pymod_nonneg (x : ℝ) {m : ℝ} (hm : 0 < m) : 0 ≤ pymod x m := by
  have h1 : (⌊x / m⌋ : ℝ) ≤ x / m := Int.floor_le _
  have h2 : m * (⌊x / m⌋ : ℝ) ≤ m * (x / m) := mul_le_mul_of_nonneg_left h1 hm.le
  have h3 : m * (x / m) = x := by field_simp
  unfold pymod
  linarith

theorem pymod_lt (x : ℝ) {m : ℝ} (hm : 0 < m) : pymod x m < m := by
  have h1 : x / m < (⌊x / m⌋ : ℝ) + 1 := Int.lt_floor_add_one _
  have h2 : m * (x / m) < m * ((⌊x / m⌋ : ℝ) + 1) := by
    exact (mul_lt_mul_left hm).mpr h1
  have h3 : m * (x / m) = x := by field_simp
  have h4 : m * ((⌊x / m⌋ : ℝ) + 1) = m * (⌊x / m⌋ : ℝ) + m := by ring
  unfold pymod
  linarith

theorem pymod_eq_self {x m : ℝ} (hm : 0 < m) (h0 : 0 ≤ x) (h1 : x < m) :
    pymod x m = x := by
  have hf : ⌊x / m⌋ = 0 := by
    rw [Int.floor_eq_zero_iff]
    constructor
    · exact div_nonneg h0 hm.le
    · exact (div_lt_one hm).mpr h1
  unfold pymod
  rw [hf]
  simp

theorem pymod_eq_sub {x m : ℝ} (hm : 0 < m) (h0 : m ≤ x) (h1 : x < 2 * m) :
    pymod x m = x - m := by
  have hf : ⌊x / m⌋ = 1 := by
    rw [Int.floor_eq_iff]
    constructor
    · push_cast
      exact (le_div_iff₀ hm).mpr (by linarith)
    · push_cast
      exact (div_lt_iff₀ hm).mpr (by linarith)
  unfold pymod
  rw [hf]
  ring

theorem tau_pos : 0 < tau := by
  unfold tau
  have := Real.pi_pos
  linarith

theorem short_angle_dist_core (d : ℝ) :
    pymod (2 * pymod d tau) tau - pymod d tau
        = pymod (pymod d tau + tau / 2) tau - tau / 2 ∧
    -(tau / 2) ≤ pymod (2 * pymod d tau) tau - pymod d tau ∧
    pymod (2 * pymod d tau) tau - pymod d tau < tau / 2 ∧
    ∃ k : ℤ, pymod (2 * pymod d tau) tau - pymod d tau = d - k * tau := by
  have hm := tau_pos
  have h0 : 0 ≤ pymod d tau := pymod_nonneg _ hm
  have h1 : pymod d tau < tau := pymod_lt _ hm
  set da := pymod d tau with hda
  have hcong : ∃ j : ℤ, da = d - j * tau := by
    refine ⟨⌊d / tau⌋, ?_⟩
    rw [hda]
    unfold pymod
    ring
  obtain ⟨j, hj⟩ := hcong
  by_cases hc : da < tau / 2
  · rw [pymod_eq_self hm (by linarith) (by linarith),
      pymod_eq_self hm (by linarith) (by linarith)]
    refine ⟨by ring, by linarith, by linarith, j, by linarith⟩
  · rw [pymod_eq_sub hm (by linarith) (by linarith),
      pymod_eq_sub hm (by linarith) (by linarith)]
    refine ⟨by ring, by linarith, by linarith, j + 1, ?_⟩
    push_cast
    linarith

theorem vlen_horizontal : vec.vlen (100, 0) = 100 := by
  unfold vec.vlen
  norm_num
  rw [show (10000 : ℝ) = 100 ^ 2 by norm_num]
  rw [Real.sqrt_sq (by norm_num : (0 : ℝ) ≤ 100)]

theorem get_midpoint_horizontal (b : ℝ) :
    get_midpoint ⟨0, 0⟩ ⟨100, 0⟩ b = ⟨50, b⟩ := by
  unfold get_midpoint vec.uni vec.div
  simp [vlen_horizontal]
  norm_num

/-! ## Claim theorems -/

/-- Claim C1, counterexample: after the pencil `DRAW_START`/`DRAW_UPDATE`/
`DRAW_END` sequence, the stored point list is not the claimed concatenation
`[(10,10),(20,20),(30,30),(30,30),(40,40)]`. -/
theorem c1_counterexample :
    c1_stored_points c1_final ≠
      some [⟨10, 10⟩, ⟨20, 20⟩, ⟨30, 30⟩, ⟨30, 30⟩, ⟨40, 40⟩] := by
  decide

/-- Claim C1, amended: the pencil `DRAW_UPDATE` concatenates the new points
onto the previous list (after it the stored list is
`[(10,10),(20,20),(30,30)]`), but the `DRAW_END` replaces the stored entry
with the points carried by the end event itself, so the final stored point
list is `[(30,30),(40,40)]`. -/
theorem c1_amended :
    c1_stored_points c1_after_update = some [⟨10, 10⟩, ⟨20, 20⟩, ⟨30, 30⟩] ∧
    c1_stored_points c1_final = some [⟨30, 30⟩, ⟨40, 40⟩] := by
  constructor
  · decide
  · decide

/-- Claim C5: the "very small" dot branch of `finalize_draw` is dead code.
The spec's condition (bounding box at most `w/2` on each axis) holds at
`size = (1,1)` with the `SMALL` stroke width 2, yet the code's chained
comparison is false there, and is in fact false for every size style and
every bounding box because every stroke width in `STROKE_WIDTHS` is at least
2 while the chain requires `stroke_width < 2`. -/
theorem c5_very_small_unreachable :
    very_small_spec ⟨1, 1⟩ (utils.STROKE_WIDTHS utils.SizeStyle.SMALL) = true ∧
    very_small ⟨1, 1⟩ (utils.STROKE_WIDTHS utils.SizeStyle.SMALL) = false ∧
    ∀ (s : utils.SizeStyle) (size : Size),
      very_small size (utils.STROKE_WIDTHS s) = false := by
  refine ⟨?_, ?_, ?_⟩
  · simp [very_small_spec, utils.STROKE_WIDTHS]
  · simp [very_small, utils.STROKE_WIDTHS]
  · intro s size
    cases s <;> simp [very_small, utils.STROKE_WIDTHS] <;> norm_num

/-- Claim C6: `parse_pan_zoom` substitutes neutral values — `NaN` in the
offsets gives pan `(0,0)`, `NaN` in the ratios gives zoom `(1,1)`, and a
parsed zoom with a non-positive width or height ratio is replaced by
`(1,1)`. -/
theorem c6_pan_zoom_neutralisation (tw : Bool) (e : PanZoomRaw) :
    ((e.x_offset = NumField.nan ∨ e.y_offset = NumField.nan) →
      (parse_pan_zoom tw e).1 = ⟨0, 0⟩) ∧
    ((e.width_ratio = NumField.nan ∨ e.height_ratio = NumField.nan) →
      (parse_pan_zoom tw e).2 = ⟨1, 1⟩) ∧
    (∀ w h, e.width_ratio = NumField.val w → e.height_ratio = NumField.val h →
      (w / 100 ≤ 0 ∨ h / 100 ≤ 0) → (parse_pan_zoom tw e).2 = ⟨1, 1⟩) := by
  refine ⟨?_, ?_, ?_⟩
  · intro h
    rcases h with h | h <;>
      cases hx : e.x_offset <;> cases hy : e.y_offset <;>
        simp_all [parse_pan_zoom]
  · intro h
    rcases h with h | h <;>
      cases hw : e.width_ratio <;> cases hh : e.height_ratio <;>
        simp_all [parse_pan_zoom]
  · intro w h hw hh hle
    rcases hle with hle | hle <;> simp [parse_pan_zoom, hw, hh, hle]

/-- Claim C6 witness: the event `widthRatio=0, heightRatio=0, xOffset=NaN,
yOffset=NaN` yields `pan = (0,0)` and `zoom = (1,1)`. -/
theorem c6_witness :
    (parse_pan_zoom false c6_event).1 = ⟨0, 0⟩ ∧
    (parse_pan_zoom false c6_event).2 = ⟨1, 1⟩ := by
  constructor
  · exact (c6_pan_zoom_neutralisation false c6_event).1 (Or.inl rfl)
  · exact (c6_pan_zoom_neutralisation false c6_event).2.2 0 0 rfl rfl
      (Or.inl (by norm_num))

/-- Claim C7: the scheduler's presentation timestamp is an exact rational
with `pts 0 = 0` and `pts i = i · framestep`, no drift, while the frame
counter starts at 1 (`frame_counter i = i + 1`). -/
theorem c7_exact_frame_clock (framerate : ℚ) (i : ℕ) :
    pts framerate 0 = 0 ∧
    pts framerate i = i * framestep framerate ∧
    frame_counter i = i + 1 := by
  refine ⟨rfl, ?_, ?_⟩
  · induction i with
    | zero => simp [pts]
    | succ n ih =>
      rw [pts, ih]
      push_cast
      ring
  · induction i with
    | zero => rfl
    | succ n ih => rw [frame_counter, ih]

/-- Claim C2, counterexample: for `start=(0,0)`, `end=(100,0)` and
`bend=0.5`, `get_midpoint` returns `(50, 0.5)`, not the claimed `(50, −25)`:
the perpendicular offset has magnitude `|bend|` itself, not `|bend|`
scaled by half the arrow length. -/
theorem c2_counterexample :
    get_midpoint ⟨0, 0⟩ ⟨100, 0⟩ (1 / 2) ≠ ⟨50, -25⟩ := by
  rw [get_midpoint_horizontal]
  intro h
  have hy := congrArg PositionR.y h
  norm_num at hy

/-- Claim C2, amended: for an arrow with handles `start=(0,0)`,
`end=(100,0)`, the derived bend handle (mid − perp·bend with
perp = (unit.y, −unit.x)) equals `(50, 0.5)` for `bend = 0.5` and
`(50, −0.5)` for `bend = −0.5`. -/
theorem c2_amended :
    get_midpoint ⟨0, 0⟩ ⟨100, 0⟩ (1 / 2) = ⟨50, 1 / 2⟩ ∧
    get_midpoint ⟨0, 0⟩ ⟨100, 0⟩ (-(1 / 2)) = ⟨50, -(1 / 2)⟩ := by
  constructor
  · exact get_midpoint_horizontal (1 / 2)
  · exact get_midpoint_horizontal (-(1 / 2))

/-- Claim C8: for every pair of distinct points, the v2 arrow bend-handle
function with bend scalar 0 returns exactly the midpoint of the two points. -/
theorem c8_zero_bend_identity (start endp : PositionR) (h : start ≠ endp) :
    get_midpoint start endp 0 = med_position start endp := by
  unfold get_midpoint med_position vec.med vec.add vec.mul
  simp only [neg_zero, mul_zero, add_zero]
  congr 1 <;> ring

/-- Claim C8 witness: the zero-bend identity at `start=(0,0)`,
`end=(100,0)`. -/
theorem c8_witness :
    get_midpoint ⟨0, 0⟩ ⟨100, 0⟩ 0 = med_position ⟨0, 0⟩ ⟨100, 0⟩ := by
  apply c8_zero_bend_identity
  intro h
  have hx := congrArg PositionR.x h
  norm_num at hx

/-- Claim C9: the implemented `short_angle_dist` — `da = (a1−a0) mod τ`,
result `((2·da) mod τ) − da` — agrees with the spec's reference definition
`((a1−a0) mod τ + τ/2) mod τ − τ/2` for all angles; the result lies in
`[−τ/2, τ/2)` and is congruent to `a1 − a0` modulo `τ`. -/
theorem c9_short_angle_dist (a0 a1 : ℝ) :
    short_angle_dist a0 a1 = short_angle_dist_spec a0 a1 ∧
    -(tau / 2) ≤ short_angle_dist a0 a1 ∧
    short_angle_dist a0 a1 < tau / 2 ∧
    ∃ k : ℤ, short_angle_dist a0 a1 = (a1 - a0) - k * tau := by
  obtain ⟨he, hlb, hub, k, hk⟩ := short_angle_dist_core (a1 - a0)
  exact ⟨he, hlb, hub, k, hk⟩

/-- Claim C3, counterexample: on a tldraw layer state whose cached pattern
holds rendered content while the current slide is unknown, `finalize_frame`
clears the cached pattern (a change) yet returns `False`. -/
theorem c3_counterexample :
    (tldrawR.tldraw_finalize_frame c3_tldraw_state transform0).1.pattern ≠
      c3_tldraw_state.pattern ∧
    (tldrawR.tldraw_finalize_frame c3_tldraw_state transform0).2 = false := by
  constructor
  · decide
  · decide

/-- Claim C3, amended: the presentation, legacy shapes and cursor layers
return `True` whenever their cached pattern changed (for the legacy shapes
layer including when a previously rendered pattern is cleared because
nothing is renderable, and for the presentation layer for every outcome of
its file loading and rendering); the tldraw layer returns `False` in exactly
the clearing case: when its pattern changes it either returns `True` or it
has cleared the pattern to `None` from a previously rendered one and
returns `False`. -/
theorem c3_amended {σ π ρ : Type}
    (load_source load_page : PresState σ π ρ → PresState σ π ρ)
    (render : PresState σ π ρ → ρ) (ps : PresState σ π ρ)
    (st : WBState) (ts : tldrawR.TState) (cs : CursorState) (t : Transform) :
    ((pres_finalize_frame load_source load_page render ps).1.pattern ≠ ps.pattern →
      (pres_finalize_frame load_source load_page render ps).2 = true) ∧
    ((wb_finalize_frame st t).1.pattern ≠ st.pattern →
      (wb_finalize_frame st t).2 = true) ∧
    ((tldrawR.tldraw_finalize_frame ts t).1.pattern ≠ ts.pattern →
      ((tldrawR.tldraw_finalize_frame ts t).2 = true ∨
        ((tldrawR.tldraw_finalize_frame ts t).1.pattern = none ∧ ts.pattern ≠ none ∧
          (tldrawR.tldraw_finalize_frame ts t).2 = false))) ∧
    ((cursor_finalize_frame cs t).1.pattern ≠ cs.pattern →
      (cursor_finalize_frame cs t).2 = true) := by
  refine ⟨?_, ?_, ?_, ?_⟩
  · intro h
    unfold pres_finalize_frame at h ⊢
    cases h1 : (ps.presentation_changed || ps.source.isNone) with
    | true => simp [h1]
    | false =>
      simp only [h1, Bool.false_eq_true, if_false, Bool.or_false] at h ⊢
      cases h2 : ps.slide_changed with
      | true => simp [h2]
      | false =>
        simp only [h2, Bool.false_eq_true, if_false, Bool.or_false] at h ⊢
        cases h3 : ps.pan_zoom_changed with
        | true => simp [h3]
        | false =>
          exfalso
          apply h
          simp [h3]
  · intro h
    by_cases hc : st.shapes_changed = false ∧ st.transform = t
    · exfalso
      apply h
      simp [wb_finalize_frame, hc]
    · cases hr : wb_renderable st with
      | none =>
        cases hpat : st.pattern with
        | none =>
          exfalso
          apply h
          simp [wb_finalize_frame, wb_renderable_update, hc, hr, hpat]
        | some pat =>
          simp [wb_finalize_frame, wb_renderable_update, hc, hr, hpat]
      | some deque =>
        simp [wb_finalize_frame, wb_renderable_update, hc, hr]
  · intro h
    by_cases hc : ts.shapes_changed = false ∧ ts.transform = t
    · exfalso
      apply h
      simp [tldrawR.tldraw_finalize_frame, hc]
    · cases hr : tldrawR.tldraw_renderable ts with
      | none =>
        right
        refine
          ⟨by simp [tldrawR.tldraw_finalize_frame, tldraw_renderable_update, hc, hr],
            ?_,
            by simp [tldrawR.tldraw_finalize_frame, tldraw_renderable_update, hc, hr]⟩
        intro hnone
        apply h
        simp [tldrawR.tldraw_finalize_frame, tldraw_renderable_update, hc, hr, hnone]
      | some shapes =>
        left
        simp [tldrawR.tldraw_finalize_frame, tldraw_renderable_update, hc, hr]
  · intro h
    by_cases hc : cs.cursors_changed = false ∧ cs.transform = some t
    · exfalso
      apply h
      simp [cursor_finalize_frame, hc]
    · simp [cursor_finalize_frame, hc]

/-- Claim C3 witness: presentation, legacy shapes and cursor layer states
that render return `True`, and the clearing tldraw layer state falls in the
amended exception. -/
theorem c3_witness :
    (pres_finalize_frame id id (fun _ => ()) c3_pres_state).2 = true ∧
    (wb_finalize_frame c3_wb_state transform0).2 = true ∧
    ((tldrawR.tldraw_finalize_frame c3_tldraw_state transform0).2 = true ∨
      ((tldrawR.tldraw_finalize_frame c3_tldraw_state transform0).1.pattern = none ∧
        c3_tldraw_state.pattern ≠ none ∧
        (tldrawR.tldraw_finalize_frame c3_tldraw_state transform0).2 = false)) ∧
    (cursor_finalize_frame c3_cursor_state transform0).2 = true := by
  refine ⟨?_, ?_, ?_, ?_⟩
  · exact (c3_amended id id (fun _ => ()) c3_pres_state c3_wb_state c3_tldraw_state
      c3_cursor_state transform0).1 (by decide)
  · exact (c3_amended id id (fun _ => ()) c3_pres_state c3_wb_state c3_tldraw_state
      c3_cursor_state transform0).2.1 (by decide)
  · exact (c3_amended id id (fun _ => ()) c3_pres_state c3_wb_state c3_tldraw_state
      c3_cursor_state transform0).2.2.1 (by decide)
  · exact (c3_amended id id (fun _ => ()) c3_pres_state c3_wb_state c3_tldraw_state
      c3_cursor_state transform0).2.2.2 (by decide)

/-- Claim C4, counterexample: an `add_shape` event whose id already exists
and whose data is partial (here `type` and `point` only) is not merged into
the existing shape; `add_shape_event` structures a whole new shape from the
data, which fails on the missing mandatory fields. -/
theorem c4_counterexample :
    tldrawR.add_shape_event c4_state c4_event_partial =
      Except.error "missing required field style" := by
  rfl

/-- Claim C4, amended: `add_shape_event` rejects `image`-typed data leaving
the state unchanged; otherwise it always parses a whole new shape from the
data with the cattrs converter — requiring every mandatory field of the
shape class and failing otherwise — and stores it at the event's id,
overwriting any existing shape with that id (no in-place merge). -/
theorem c4_amended (st : tldrawR.TState) (ev : tldrawR.AddShapeEvent) :
    (ev.data.type = some "image" →
      tldrawR.add_shape_event st ev = Except.ok st) ∧
    (∀ msg, ev.data.type ≠ some "image" →
      tldrawR.shape_structure_hook ev.data = Except.error msg →
      tldrawR.add_shape_event st ev = Except.error msg) ∧
    (∀ sh, ev.data.type ≠ some "image" →
      tldrawR.shape_structure_hook ev.data = Except.ok sh →
      ∃ st2, tldrawR.add_shape_event st ev = Except.ok st2 ∧
        tldrawR.lookupShape st2 ev.presentation ev.slide ev.id = some sh ∧
        st2.shapes_changed = true) := by
  refine ⟨?_, ?_, ?_⟩
  · intro h
    simp [tldrawR.add_shape_event, h]
  · intro msg hni hok
    rcases ht : ev.data.type with _ | t
    · simp [tldrawR.shape_structure_hook, ht] at hok
      simp [tldrawR.add_shape_event, ht, hok]
    · have htne : t ≠ "image" := by
        intro hteq
        exact hni (by rw [ht, hteq])
      simp only [tldrawR.add_shape_event, ht, if_neg htne, hok]
      rfl
  · intro sh hni hok
    rcases ht : ev.data.type with _ | t
    · simp [tldrawR.shape_structure_hook, ht] at hok
    · have htne : t ≠ "image" := by
        intro hteq
        exact hni (by rw [ht, hteq])
      refine
        ⟨{ tldrawR.ensure_shape_structure st ev.presentation ev.slide with
            shapes :=
              dictSet (tldrawR.ensure_shape_structure st ev.presentation ev.slide).shapes
                ev.presentation
                (dictSet
                  ((dictLookup
                      (tldrawR.ensure_shape_structure st ev.presentation ev.slide).shapes
                      ev.presentation).getD [])
                  ev.slide
                  (dictSet
                    ((dictLookup
                        ((dictLookup
                            (tldrawR.ensure_shape_structure st ev.presentation
                              ev.slide).shapes
                            ev.presentation).getD [])
                        ev.slide).getD [])
                    ev.id sh))
            shapes_changed := true }, ?_, ?_, rfl⟩
      · simp only [tldrawR.add_shape_event, ht, if_neg htne, hok]
        rfl
      · simp [tldrawR.lookupShape, dictLookup_dictSet_self]

/-- Claim C4 witness: an `image`-typed event leaves a fresh renderer state
unchanged, and a complete `draw` document is structured and stored at its
id with the dirty flag set. -/
theorem c4_witness :
    tldrawR.add_shape_event tldraw_init c4_event_image = Except.ok tldraw_init ∧
    ∃ st2, tldrawR.add_shape_event tldraw_init c4_event_full = Except.ok st2 ∧
      tldrawR.lookupShape st2 "pres" 1 "s1" = some c4_shape ∧
      st2.shapes_changed = true := by
  constructor
  · exact (c4_amended tldraw_init c4_event_image).1 rfl
  · exact (c4_amended tldraw_init c4_event_full).2.2 c4_shape (by decide) rfl

/-- Claim C10: a parser-produced legacy shape event always carries the
`presentation` and `slide` keys, so when its slide is `None` the event is
dropped atomically (the state is returned unchanged, no shape stored, no
dirty flag) for every shape type and status; moreover on such events
`update_shape` behaves exactly like the variant without the text/`DRAW_END`
missing-page check, i.e. that check is unreachable for parser-produced
events. -/
theorem c10_pageless_dropped (st : WBState) (p : ParsedShapeEvent) :
    (p.slide = none → update_shape st p.toEvent = st) ∧
    update_shape st p.toEvent = update_shape_no_text_check st p.toEvent := by
  constructor
  · intro h
    cases hp : p.presentation <;>
      simp [update_shape, ParsedShapeEvent.toEvent, h, hp]
  · cases hp : p.presentation with
    | none =>
      simp [update_shape, update_shape_no_text_check, ParsedShapeEvent.toEvent, hp]
    | some pres =>
      cases hs : p.slide with
      | none =>
        simp [update_shape, update_shape_no_text_check, ParsedShapeEvent.toEvent, hp, hs]
      | some s =>
        simp [update_shape, update_shape_no_text_check, ParsedShapeEvent.toEvent, hp, hs]

/-- Claim C10 witness: a concrete text `DRAW_END` event without page info is
dropped without any state change, and agrees with the check-free variant. -/
theorem c10_witness :
    update_shape wb_init c10_event.toEvent = wb_init ∧
    update_shape wb_init c10_event.toEvent =
      update_shape_no_text_check wb_init c10_event.toEvent := by
  constructor
  · exact (c10_pageless_dropped wb_init c10_event).1 rfl
  · exact (c10_pageless_dropped wb_init c10_event).2

end BBB
